import Mathlib

/-!
# Verification of the Ariston remote-thermostat synchronization core

Shallow embedding of `ariston/__init__.py` (class `AristonChecker`): the
availability predicate, the login session, the poll loop (`command` /
`_get_http_data`), the write reconciler (`_set_http_data` /
`_actual_set_http_data`) and the 12h-to-24h "deroga until" normalizer
(`_set_deroga_time`).

Python strings are modelled as `List Char`; network interactions are
modelled by oracles supplying the outcome of each request; Python
exceptions become an `Option AErr` component of each result (mutations
performed before the raise are kept, as in Python).
-/

namespace Ariston

/-- Python `str` modelled as a list of characters. -/
abbrev PyStr := List Char

/-- Characters stripped by Python `str.strip()` (ASCII whitespace). -/
def pyIsSpace (c : Char) : Bool :=
  c = ' ' || c = '\t' || c = '\n' || c = '\r' || c = '\x0b' || c = '\x0c'

/-- Python `s.strip()` (ASCII whitespace only). -/
def stripWs (s : PyStr) : PyStr :=
  ((s.dropWhile pyIsSpace).reverse.dropWhile pyIsSpace).reverse

/-- Python `s.split(sep)` with an explicit one-character separator:
splits at every occurrence and keeps empty parts (`"".split(c) = [""]`). -/
def splitOn (sep : Char) : PyStr → List PyStr
  | [] => [[]]
  | c :: cs =>
    if c = sep then [] :: splitOn sep cs
    else
      match splitOn sep cs with
      | [] => [[c]]
      | r :: rs => (c :: r) :: rs

/-- Non-empty all-decimal-digit string (the shape accepted by Python
`int(s)` after sign/whitespace handling). -/
def isPyDigits (s : PyStr) : Bool :=
  !s.isEmpty && s.all (·.isDigit)

/-- Value of a decimal digit string. -/
def digitsToNat (s : PyStr) : Nat :=
  s.foldl (fun a c => 10 * a + (c.toNat - 48)) 0

/-- Model of Python `int(s)`: strip whitespace, optional sign, decimal
digits; `none` models the `ValueError`. (Underscore separators accepted
by newer CPython are not modelled.) -/
def pyInt (s : PyStr) : Option Int :=
  match stripWs s with
  | [] => none
  | c :: cs =>
    if c = '+' then
      if isPyDigits cs then some (digitsToNat cs) else none
    else if c = '-' then
      if isPyDigits cs then some (-(digitsToNat cs : Int)) else none
    else
      if isPyDigits (c :: cs) then some (digitsToNat (c :: cs)) else none

/-- Python `str(i)` for an `int`. -/
def pyStrOfInt (i : Int) : PyStr := (toString i).data

/-- `DEFAULT_TIME = "00:00"`. -/
def DEFAULT_TIME : PyStr := "00:00".data

/-- `AristonChecker._set_deroga_time`, lines 238-269: the 12h-to-24h
normalization of the `zone.derogaUntil` field.  The argument is the
string read from the snapshot (the `isinstance`/missing-key guard of
lines 240-246 supplies `DEFAULT_TIME` when it is not a string).  The
`try`/bare-`except` around the branching is modelled by the `Option`
computation: any failed list index or failed `int()` parse yields
`none`, defaulted to `DEFAULT_TIME`. -/
def set_deroga_time (time_str_12h : PyStr) : PyStr :=
  let time_and_indic := splitOn ' ' time_str_12h
  let attempt : Option PyStr := do
    let indic ← time_and_indic.get? 1
    if indic = "AM".data then
      let t0 ← time_and_indic.get? 0
      if t0 = "12:00".data then pure "00:00".data else pure t0
    else if indic = "PM".data then
      let t0 ← time_and_indic.get? 0
      if t0 = "12:00".data then pure "12:00".data
      else
        let time_hour_minute := splitOn ':' t0
        let h ← time_hour_minute.get? 0
        let m ← time_hour_minute.get? 1
        let n ← pyInt h
        pure (pyStrOfInt (n + 12) ++ m)
    else
      let time_hour_minute := splitOn ':' time_str_12h
      let h ← time_hour_minute.get? 0
      let m ← time_hour_minute.get? 1
      if h = [] || m = [] then pure DEFAULT_TIME else pure time_str_12h
  attempt.getD DEFAULT_TIME

/-! ## Helper lemmas about the string model -/

theorem splitOn_ne_nil (c : Char) (s : PyStr) : splitOn c s ≠ [] := by
  cases s with
  | nil => simp [splitOn]
  | cons d cs =>
    by_cases hd : d = c
    · simp [splitOn, hd]
    · simp only [splitOn, if_neg hd]
      cases splitOn c cs <;> simp

theorem splitOn_cons_head (c : Char) {a : PyStr} (b : PyStr) (h : ∀ x ∈ a, x ≠ c) :
    splitOn c (a ++ b) = (a ++ (splitOn c b).headI) :: (splitOn c b).tail := by
  induction a with
  | nil =>
    simp only [List.nil_append]
    cases hs : splitOn c b with
    | nil => exact absurd hs (splitOn_ne_nil c b)
    | cons r rs => simp
  | cons d a ih =>
    have hd : d ≠ c := h d (List.mem_cons_self d a)
    have h2 : ∀ x ∈ a, x ≠ c := fun x hx => h x (List.mem_cons_of_mem d hx)
    simp only [List.cons_append, splitOn, if_neg hd]
    rw [show List.append a b = a ++ b from rfl, ih h2]

theorem splitOn_eq_single (c : Char) {a : PyStr} (h : ∀ x ∈ a, x ≠ c) :
    splitOn c a = [a] := by
  have := splitOn_cons_head c [] h
  simpa [splitOn] using this

theorem isDigit_ne_space {c : Char} (h : c.isDigit = true) : pyIsSpace c = false := by
  have h1 : c ≠ ' ' := by rintro rfl; exact absurd h (by decide)
  have h2 : c ≠ '\t' := by rintro rfl; exact absurd h (by decide)
  have h3 : c ≠ '\n' := by rintro rfl; exact absurd h (by decide)
  have h4 : c ≠ '\r' := by rintro rfl; exact absurd h (by decide)
  have h5 : c ≠ '\x0b' := by rintro rfl; exact absurd h (by decide)
  have h6 : c ≠ '\x0c' := by rintro rfl; exact absurd h (by decide)
  simp [pyIsSpace, h1, h2, h3, h4, h5, h6]

theorem isDigit_ne_colon {c : Char} (h : c.isDigit = true) : c ≠ ':' := by
  rintro rfl; exact absurd h (by decide)

theorem isDigit_ne_space_char {c : Char} (h : c.isDigit = true) : c ≠ ' ' := by
  rintro rfl; exact absurd h (by decide)

theorem dropWhile_pyIsSpace_of_head {c : Char} (cs : PyStr) (h : pyIsSpace c = false) :
    (c :: cs).dropWhile pyIsSpace = c :: cs := by
  simp [List.dropWhile_cons, h]

theorem all_isDigit_of_isPyDigits {c : Char} {cs : PyStr}
    (h : isPyDigits (c :: cs) = true) : ∀ x ∈ c :: cs, x.isDigit = true := by
  simp only [isPyDigits, Bool.and_eq_true, List.all_eq_true] at h
  exact h.2

theorem stripWs_of_digits {s : PyStr} (h : isPyDigits s = true) : stripWs s = s := by
  cases s with
  | nil => simp [isPyDigits] at h
  | cons c cs =>
    have hall := all_isDigit_of_isPyDigits h
    have hc : pyIsSpace c = false :=
      isDigit_ne_space (hall c (List.mem_cons_self c cs))
    unfold stripWs
    rw [dropWhile_pyIsSpace_of_head cs hc]
    cases hr : (c :: cs).reverse with
    | nil => exact absurd hr (by simp)
    | cons d ds =>
      have hd : d ∈ c :: cs := by
        rw [← List.mem_reverse, hr]; exact List.mem_cons_self d ds
      have hds : pyIsSpace d = false := isDigit_ne_space (hall d hd)
      rw [dropWhile_pyIsSpace_of_head ds hds, ← hr, List.reverse_reverse]

theorem pyInt_of_digits {s : PyStr} (h : isPyDigits s = true) :
    pyInt s = some (digitsToNat s : Int) := by
  have hs := stripWs_of_digits h
  cases s with
  | nil => simp [isPyDigits] at h
  | cons c cs =>
    have hall := all_isDigit_of_isPyDigits h
    have hdig : c.isDigit = true := hall c (List.mem_cons_self c cs)
    have hplus : c ≠ '+' := by rintro rfl; exact absurd hdig (by decide)
    have hminus : c ≠ '-' := by rintro rfl; exact absurd hdig (by decide)
    unfold pyInt
    rw [hs]
    simp [hplus, hminus, h]

/-! ## Claims C5 and C6: the deroga-time normalization -/

/-- C5 (counterexample): the claim states that a colon-separated
hour/minute string with no space and no AM/PM suffix, such as "18:30",
is passed through unchanged.  In the code, `"18:30".split(' ')` yields a
single-element list, so `time_and_indic[1]` raises `IndexError`, the
bare `except` catches it, and the default "00:00" is returned instead. -/
theorem claim_C5_counterexample :
    set_deroga_time "18:30".data = "00:00".data ∧ "00:00".data ≠ "18:30".data := by
  constructor
  · decide
  · decide

/-- C5 (amended): for input strings without an AM/PM suffix, the
fallback validation is only reached when the string has a second
space-separated token (which is neither "AM" nor "PM"); any string
containing no space at all — such as "18:30" — hits the IndexError of
the suffix test and yields the default "00:00".  Strings with such a
second token are passed through unchanged when the whole string splits
on ':' into a non-empty hour part and a present minute part. -/
theorem claim_C5 :
    (∀ s : PyStr, (∀ x ∈ s, x ≠ ' ') → set_deroga_time s = DEFAULT_TIME) ∧
    (∀ u v t : PyStr, (∀ x ∈ u, x ≠ ' ') → (∀ x ∈ u, x ≠ ':') →
      (∀ x ∈ v, x ≠ ' ') → (∀ x ∈ v, x ≠ ':') → (∀ x ∈ t, x ≠ ' ') →
      u ≠ [] → t ≠ "AM".data → t ≠ "PM".data →
      set_deroga_time (u ++ ':' :: (v ++ ' ' :: t)) = u ++ ':' :: (v ++ ' ' :: t)) := by
  constructor
  · intro s hs
    unfold set_deroga_time
    rw [splitOn_eq_single ' ' hs]
    simp
  · intro u v t hu hu2 hv hv2 ht hune htam htpm
    have hrearr : u ++ ':' :: (v ++ ' ' :: t) = (u ++ ':' :: v) ++ ' ' :: t := by
      simp
    have ha : ∀ x ∈ u ++ ':' :: v, x ≠ ' ' := by
      intro x hx
      rcases List.mem_append.1 hx with hxu | hxcv
      · exact hu x hxu
      · rcases List.mem_cons.1 hxcv with rfl | hxv
        · decide
        · exact hv x hxv
    have hsplit1 : splitOn ' ' (u ++ ':' :: (v ++ ' ' :: t)) = [u ++ ':' :: v, t] := by
      rw [hrearr, splitOn_cons_head ' ' (' ' :: t) ha]
      have : splitOn ' ' (' ' :: t) = [] :: [t] := by
        simp [splitOn, splitOn_eq_single ' ' ht]
      rw [this]
      simp
    have hsplit2 : splitOn ':' (u ++ ':' :: (v ++ ' ' :: t)) =
        u :: splitOn ':' (v ++ ' ' :: t) := by
      rw [splitOn_cons_head ':' (':' :: (v ++ ' ' :: t)) hu2]
      have : splitOn ':' (':' :: (v ++ ' ' :: t)) = [] :: splitOn ':' (v ++ ' ' :: t) := by
        simp [splitOn]
      rw [this]
      simp
    have hsplit3 : splitOn ':' (v ++ ' ' :: t) =
        (v ++ (splitOn ':' (' ' :: t)).headI) :: (splitOn ':' (' ' :: t)).tail :=
      splitOn_cons_head ':' (' ' :: t) hv2
    have hsp : splitOn ':' (' ' :: t) =
        (' ' :: (splitOn ':' t).headI) :: (splitOn ':' t).tail := by
      have := splitOn_cons_head ':' ([' '] ++ t) (a := []) (by simp)
      have h2 := splitOn_cons_head ':' t (a := [' ']) (by simp)
      simpa using h2
    rw [show ("AM".data : PyStr) = ['A', 'M'] from rfl] at htam
    rw [show ("PM".data : PyStr) = ['P', 'M'] from rfl] at htpm
    unfold set_deroga_time
    rw [hsplit1]
    simp only [List.get?_cons_succ, List.get?_cons_zero, Option.bind_eq_bind,
      Option.some_bind]
    rw [if_neg htam, if_neg htpm]
    rw [hsplit2]
    simp only [List.get?_cons_zero, List.get?_cons_succ, Option.bind_eq_bind,
      Option.some_bind]
    rw [hsplit3, hsp]
    simp only [List.get?_cons_zero, Option.bind_eq_bind, Option.some_bind]
    have hne2 : v ++ ' ' :: (splitOn ':' t).headI ≠ [] := by simp
    rw [if_neg (by simp [hune, hne2])]
    simp

/-- C6: every "H:MM PM" input other than exactly "12:00 PM" is mapped to
the decimal string of H+12 concatenated directly with MM (no colon);
"12:00 PM" yields "12:00" and "12:00 AM" yields "00:00". -/
theorem claim_C6 :
    (∀ hh mm : PyStr, isPyDigits hh = true → isPyDigits mm = true →
      hh ++ ':' :: mm ≠ "12:00".data →
      set_deroga_time (hh ++ ':' :: (mm ++ ' ' :: "PM".data)) =
        pyStrOfInt ((digitsToNat hh : Int) + 12) ++ mm) ∧
    set_deroga_time "12:00 PM".data = "12:00".data ∧
    set_deroga_time "12:00 AM".data = "00:00".data := by
  refine ⟨?_, by decide, by decide⟩
  intro hh mm hd md hne
  have hhd : ∀ x ∈ hh, x.isDigit = true := by
    cases hh with
    | nil => simp [isPyDigits] at hd
    | cons c cs => exact all_isDigit_of_isPyDigits hd
  have hmd : ∀ x ∈ mm, x.isDigit = true := by
    cases mm with
    | nil => simp [isPyDigits] at md
    | cons c cs => exact all_isDigit_of_isPyDigits md
  have ha : ∀ x ∈ hh ++ ':' :: mm, x ≠ ' ' := by
    intro x hx
    rcases List.mem_append.1 hx with hxu | hxcv
    · exact isDigit_ne_space_char (hhd x hxu)
    · rcases List.mem_cons.1 hxcv with rfl | hxv
      · decide
      · exact isDigit_ne_space_char (hmd x hxv)
  have hrearr : hh ++ ':' :: (mm ++ ' ' :: "PM".data) =
      (hh ++ ':' :: mm) ++ ' ' :: "PM".data := by simp
  have hsplit1 : splitOn ' ' (hh ++ ':' :: (mm ++ ' ' :: "PM".data)) =
      [hh ++ ':' :: mm, "PM".data] := by
    rw [hrearr, splitOn_cons_head ' ' (' ' :: "PM".data) ha]
    have : splitOn ' ' (' ' :: "PM".data) = [] :: ["PM".data] := by decide
    rw [this]
    simp
  have hsplit2 : splitOn ':' (hh ++ ':' :: mm) = [hh, mm] := by
    rw [splitOn_cons_head ':' (':' :: mm) (fun x hx => isDigit_ne_colon (hhd x hx))]
    have : splitOn ':' (':' :: mm) = [] :: [mm] := by
      simp [splitOn, splitOn_eq_single ':' (fun x hx => isDigit_ne_colon (hmd x hx))]
    rw [this]
    simp
  rw [show ("12:00".data : PyStr) = ['1', '2', ':', '0', '0'] from rfl] at hne
  unfold set_deroga_time
  rw [hsplit1]
  simp only [List.get?_cons_succ, List.get?_cons_zero, Option.bind_eq_bind,
    Option.some_bind]
  rw [if_neg (by decide)]
  simp only [if_true]
  rw [if_neg hne]
  rw [hsplit2]
  simp only [List.get?_cons_succ, List.get?_cons_zero, Option.bind_eq_bind,
    Option.some_bind]
  rw [pyInt_of_digits hd]
  simp

/-- C6 witness: concrete evaluations through `claim_C6`, in particular
"12:30 PM" yields "2430" and "1:15 PM" yields "1315". -/
theorem claim_C6_witness :
    set_deroga_time "12:30 PM".data = "2430".data ∧
    set_deroga_time "1:15 PM".data = "1315".data := by
  constructor
  · have hc := claim_C6.1 "12".data "30".data (by decide) (by decide) (by decide)
    have e1 : "12".data ++ ':' :: ("30".data ++ ' ' :: "PM".data) = "12:30 PM".data := by
      decide
    have e2 : pyStrOfInt ((digitsToNat "12".data : Int) + 12) ++ "30".data =
        "2430".data := by decide
    rw [e1, e2] at hc
    exact hc
  · have hc := claim_C6.1 "1".data "15".data (by decide) (by decide) (by decide)
    have e1 : "1".data ++ ':' :: ("15".data ++ ' ' :: "PM".data) = "1:15 PM".data := by
      decide
    have e2 : pyStrOfInt ((digitsToNat "1".data : Int) + 12) ++ "15".data =
        "1315".data := by decide
    rw [e1, e2] at hc
    exact hc

/-- C5 witness: through `claim_C5`, "18:30" (no space) maps to the
default and "18:30 X" (second token present, not AM/PM) passes through. -/
theorem claim_C5_witness :
    set_deroga_time "18:30".data = DEFAULT_TIME ∧
    set_deroga_time "18:30 X".data = "18:30 X".data := by
  constructor
  · exact claim_C5.1 "18:30".data (by decide)
  · have hc := claim_C5.2 "18".data "30".data "X".data (by decide) (by decide)
      (by decide) (by decide) (by decide) (by decide) (by decide) (by decide)
    have e1 : "18".data ++ ':' :: ("30".data ++ ' ' :: "X".data) = "18:30 X".data := by
      decide
    rw [e1] at hc
    exact hc

/-! ## Data model: snapshot, pending change set, checker state -/

/-- Module constant `MAX_ERRORS = 4`. -/
def MAX_ERRORS : Nat := 4

/-- Module constant `MAX_ERRORS_TIMER_EXTEND = 2`. -/
def MAX_ERRORS_TIMER_EXTEND : Nat := 2

/-- Module constant `HTTP_RETRY_INTERVAL = 45`. -/
def HTTP_RETRY_INTERVAL : Int := 45

/-- Module constant `HTTP_RETRY_INTERVAL_DOWN = 80`. -/
def HTTP_RETRY_INTERVAL_DOWN : Int := 80

/-- Module constant `HTTP_SET_INTERVAL = HTTP_RETRY_INTERVAL_DOWN * 2`. -/
def HTTP_SET_INTERVAL : Int := HTTP_RETRY_INTERVAL_DOWN * 2

/-- Module constant `TIMER_SET_LOCK = 25`. -/
def TIMER_SET_LOCK : Int := 25

/-- The fields of the fetched plant-state JSON document that the checker
reads or writes (`mode`, `dhwTemp.{value,min,max}`,
`zone.comfortTemp.{value,min,max}`, `zone.mode.value`,
`zone.derogaUntil`).  Numeric JSON values are modelled as rationals
(mode codes as integers), the deroga time as a string. -/
structure Snapshot where
  mode : Int
  dhwTempValue : ℚ
  dhwTempMin : ℚ
  dhwTempMax : ℚ
  zoneComfortTempValue : ℚ
  zoneComfortTempMin : ℚ
  zoneComfortTempMax : ℚ
  zoneModeValue : Int
  zoneDerogaUntil : PyStr
deriving DecidableEq, Repr

/-- `self._set_param`: the pending change set, a dict with at most the
four keys `PARAM_MODE`, `PARAM_DHW_SET_TEMPERATURE`,
`PARAM_CH_SET_TEMPERATURE`, `PARAM_CH_MODE`. -/
structure Pending where
  mode : Option Int
  dhwTemp : Option ℚ
  chTemp : Option ℚ
  chMode : Option Int
deriving DecidableEq, Repr

/-- The empty pending change set (`{}`). -/
def Pending.empty : Pending := ⟨none, none, none, none⟩

/-- The mutable state of one `AristonChecker` instance (`__init__`,
lines 114-143).  `ariston_data = none` models the initial empty dict
`{}`; timestamps are rationals (Python `time.time()` floats).  Lock
objects, the HTTP session, the Home-Assistant handle and the fixed URL
are not state in the model; field names drop the Python underscore
prefix. -/
structure State where
  ariston_data : Option Snapshot
  errors : Nat
  get_time_start : Int
  get_time_end : Int
  init_available : Bool
  login : Bool
  plant_id : String
  retry_timeout : Int
  set_param : Pending
  set_retry : Nat
  set_max_retries : Nat
  set_new_data : Bool
  set_scheduled : Bool
  set_time_start : Int
  set_time_end : Int
  token : Option (String × String)
  user : String
  password : String
deriving DecidableEq, Repr

/-- `AristonChecker.available` (lines 145-148):
`self._errors <= MAX_ERRORS and self._init_available`. -/
def available (s : State) : Bool :=
  decide (s.errors ≤ MAX_ERRORS) && s.init_available

/-- Raised error kinds: `CommError`, `LoginError` (both `AristonError`
subclasses), and `pyError` for an uncaught Python exception. -/
inductive AErr
  | comm
  | login
  | pyError
deriving DecidableEq, Repr

/-- Outcome of one POST to `/Account/Login`, as far as the code
inspects it: a read timeout, a redirect to `/PlantDashboard/Index/…`
(the plant id extracted from path segment 5 of `resp.url`), or any
other response.  The URL parsing itself is abstracted to the plant id
it produces. -/
inductive LoginOutcome
  | timeout
  | redirect (plant_id : String)
  | noRedirect
deriving DecidableEq, Repr

/-- Result of a state-mutating operation: the state after all mutations
performed up to the point of return or raise, the raised error if any,
and the number of network requests issued. -/
structure OpResult where
  state : State
  err : Option AErr
  netCalls : Nat
deriving DecidableEq, Repr

/-- `AristonChecker._login_session` (lines 150-180).  If already logged
in, nothing happens.  Otherwise the digest token is stored, one POST is
made; a timeout raises `CommError`; a redirect to the dashboard stores
the plant id and sets the login flag; any other reply raises
`LoginError`. -/
def login_session (s : State) (o : LoginOutcome) : OpResult :=
  if s.login then
    { state := s, err := none, netCalls := 0 }
  else
    let s1 : State := { s with token := some (s.user, s.password) }
    match o with
    | .timeout => { state := s1, err := some .comm, netCalls := 1 }
    | .redirect pid =>
        { state := { s1 with plant_id := pid, login := true }, err := none, netCalls := 1 }
    | .noRedirect => { state := s1, err := some .login, netCalls := 1 }

/-! ## Claim C1: the availability predicate -/

/-- C1: `available` is true iff the one-time `_init_available` latch is
set and the error counter is at most `MAX_ERRORS` (4); in particular it
is false for every error count while the latch is unset. -/
theorem claim_C1 :
    ∀ s : State,
      (available s = true ↔ s.init_available = true ∧ s.errors ≤ MAX_ERRORS) ∧
      (s.init_available = false → available s = false) := by
  intro s
  constructor
  · simp [available, and_comm]
  · intro h
    simp [available, h]

/-- C1 witness: a state with the latch unset and zero errors is
unavailable. -/
theorem claim_C1_witness :
    available
      { ariston_data := none, errors := 0, get_time_start := 0, get_time_end := 0,
        init_available := false, login := false, plant_id := "", retry_timeout := 45,
        set_param := Pending.empty, set_retry := 0, set_max_retries := 1,
        set_new_data := false, set_scheduled := false, set_time_start := 0,
        set_time_end := 0, token := none, user := "u", password := "p" } = false :=
  (claim_C1 _).2 rfl

/-! ## Claim C8: idempotence of the login operation -/

/-- C8: calling `_login_session` while already logged in makes no
network call and leaves the whole state (token, plant id, login flag
included) unchanged; repeating the call yields the same result. -/
theorem claim_C8 :
    ∀ (s : State) (o o2 : LoginOutcome), s.login = true →
      login_session s o = { state := s, err := none, netCalls := 0 } ∧
      login_session (login_session s o).state o2 =
        { state := s, err := none, netCalls := 0 } := by
  intro s o o2 h
  have h1 : login_session s o = { state := s, err := none, netCalls := 0 } := by
    simp [login_session, h]
  exact ⟨h1, by rw [h1]; simp [login_session, h]⟩

/-- C8 witness: a concrete logged-in state is untouched by
`_login_session`. -/
theorem claim_C8_witness :
    login_session
      { ariston_data := none, errors := 0, get_time_start := 0, get_time_end := 0,
        init_available := true, login := true, plant_id := "55555", retry_timeout := 45,
        set_param := Pending.empty, set_retry := 0, set_max_retries := 1,
        set_new_data := false, set_scheduled := false, set_time_start := 0,
        set_time_end := 0, token := none, user := "u", password := "p" }
      LoginOutcome.timeout =
      { state :=
          { ariston_data := none, errors := 0, get_time_start := 0, get_time_end := 0,
            init_available := true, login := true, plant_id := "55555",
            retry_timeout := 45, set_param := Pending.empty, set_retry := 0,
            set_max_retries := 1, set_new_data := false, set_scheduled := false,
            set_time_start := 0, set_time_end := 0, token := none, user := "u",
            password := "p" },
        err := none, netCalls := 0 } :=
  (claim_C8 _ LoginOutcome.timeout LoginOutcome.timeout rfl).1

/-! ## The poll loop: `_get_http_data` and `command` -/

/-- Network outcome of the GET for the plant data: a request exception
(timeout etc.), or a reply with its status code, the time the reply
arrived, and the parsed JSON body (`none` = not JSON). -/
inductive GetNet
  | timeout
  | reply (code : Nat) (endTime : Int) (body : Option Snapshot)
deriving DecidableEq, Repr

/-- Oracle for one `_get_http_data` call: the login outcome (used only
if not yet logged in), the wall-clock time of the `TIMER_SET_LOCK`
check, the time recorded as `_get_time_start`, and the GET outcome. -/
structure GetOracle where
  login : LoginOutcome
  now : Int
  getStart : Int
  net : GetNet
deriving DecidableEq, Repr

/-- `AristonChecker._get_http_data` (lines 182-236).  Login first; then
if logged in with a known plant id and outside the write-lock window,
issue the GET: status 599 raises `CommError`; 500 clears the login flag
and raises `CommError`; any other non-200 raises `CommError`; on 200
the read-end timestamp is recorded, then a malformed body clears the
login flag and raises `CommError`, and a good body replaces the
snapshot.  Inside the write-lock window nothing is fetched and nothing
is raised.  Without login/plant a `LoginError` is raised. -/
def get_http_data (s : State) (o : GetOracle) : OpResult :=
  let lr := login_session s o.login
  match lr.err with
  | some _ => lr
  | none =>
    let s1 := lr.state
    if s1.login = true ∧ s1.plant_id ≠ "" then
      if o.now - s1.set_time_start > TIMER_SET_LOCK then
        let s2 : State := { s1 with get_time_start := o.getStart }
        match o.net with
        | .timeout => { state := s2, err := some .comm, netCalls := lr.netCalls + 1 }
        | .reply code endTime body =>
          if code = 599 then
            { state := s2, err := some .comm, netCalls := lr.netCalls + 1 }
          else if code = 500 then
            { state := { s2 with login := false }, err := some .comm,
              netCalls := lr.netCalls + 1 }
          else if code ≠ 200 then
            { state := s2, err := some .comm, netCalls := lr.netCalls + 1 }
          else
            let s3 : State := { s2 with get_time_end := endTime }
            match body with
            | none =>
                { state := { s3 with login := false }, err := some .comm,
                  netCalls := lr.netCalls + 1 }
            | some d =>
                { state := { s3 with ariston_data := some d }, err := none,
                  netCalls := lr.netCalls + 1 }
      else { state := s1, err := none, netCalls := lr.netCalls }
    else { state := s1, err := some .login, netCalls := lr.netCalls }

/-- The poll interval chosen at the top of `command` (lines 463-469):
the long interval once `_errors >= MAX_ERRORS_TIMER_EXTEND`. -/
def pollInterval (s : State) : Int :=
  if MAX_ERRORS_TIMER_EXTEND ≤ s.errors then HTTP_RETRY_INTERVAL_DOWN
  else HTTP_RETRY_INTERVAL

/-- Result of one poll tick: final state, whether the availability
event (`dispatcher_send`) fired, the re-raised error if the fetch
failed, and network calls made. -/
structure CommandResult where
  state : State
  event : Bool
  err : Option AErr
  netCalls : Nat
deriving DecidableEq, Repr

/-- The `except AristonError` handler of `command` (lines 474-485):
`was_online` is availability before the increment, `offline` after; on
the true-to-false transition the login flag is cleared and the event
fires; the error is re-raised either way. -/
def commandFail (gr : OpResult) (e : AErr) : CommandResult :=
  if !available { gr.state with errors := gr.state.errors + 1 } && available gr.state then
    { state := { gr.state with errors := gr.state.errors + 1, login := false },
      event := true, err := some e, netCalls := gr.netCalls }
  else
    { state := { gr.state with errors := gr.state.errors + 1 },
      event := false, err := some e, netCalls := gr.netCalls }

/-- The success tail of `command` (lines 486-492): `was_offline` read
before the reset, error counter zeroed, one-time latch set, event fired
when previously unavailable. -/
def commandOk (gr : OpResult) : CommandResult :=
  { state := { gr.state with errors := 0, init_available := true },
    event := !available gr.state, err := none, netCalls := gr.netCalls }

/-- `AristonChecker.command` (lines 460-492): one poll tick.  The next
tick is always rescheduled first with the interval derived from the
current error count, then the fetch is attempted and its outcome
handled by `commandFail` / `commandOk`. -/
def command (s : State) (o : GetOracle) : CommandResult :=
  let gr := get_http_data { s with retry_timeout := pollInterval s } o
  match gr.err with
  | some e => commandFail gr e
  | none => commandOk gr

/-! ## Poll-loop lemmas -/

theorem login_session_fields (s : State) (o : LoginOutcome) :
    (login_session s o).state.errors = s.errors ∧
    (login_session s o).state.init_available = s.init_available := by
  cases hl : s.login <;> cases o <;> simp [login_session, hl]

theorem get_http_data_fields (s : State) (o : GetOracle) :
    (get_http_data s o).state.errors = s.errors ∧
    (get_http_data s o).state.init_available = s.init_available := by
  have hls := login_session_fields s o.login
  unfold get_http_data
  rcases he : (login_session s o.login).err with _ | e <;>
    simp only [he] <;>
    [skip; exact hls]
  split
  · split
    · rcases o.net with _ | ⟨code, endTime, body⟩
      · simpa using hls
      · simp only []
        split
        · simpa using hls
        · split
          · simpa using hls
          · split
            · simpa using hls
            · rcases body with _ | d <;> simpa using hls
    · exact hls
  · exact hls

theorem get_http_data_available (s : State) (o : GetOracle) :
    available (get_http_data s o).state = available s := by
  have h := get_http_data_fields s o
  simp [available, h.1, h.2]

theorem command_eq (s : State) (o : GetOracle) :
    command s o =
      match (get_http_data { s with retry_timeout := pollInterval s } o).err with
      | some e => commandFail (get_http_data { s with retry_timeout := pollInterval s } o) e
      | none => commandOk (get_http_data { s with retry_timeout := pollInterval s } o) :=
  rfl

theorem commandFail_spec (gr : OpResult) (e : AErr) :
    ((commandFail gr e).event = true ↔
      available (commandFail gr e).state ≠ available gr.state) ∧
    (commandFail gr e).err = some e ∧
    (available gr.state = true ∧ available (commandFail gr e).state = false →
      (commandFail gr e).state.login = false) ∧
    (¬(available gr.state = true ∧ available (commandFail gr e).state = false) →
      (commandFail gr e).state.login = gr.state.login) := by
  have hlog : available { gr.state with errors := gr.state.errors + 1, login := false } =
      available { gr.state with errors := gr.state.errors + 1 } := rfl
  have hmono : available { gr.state with errors := gr.state.errors + 1 } = true →
      available gr.state = true := by
    simp only [available, Bool.and_eq_true, decide_eq_true_eq, MAX_ERRORS]
    exact fun h => ⟨by omega, h.2⟩
  unfold commandFail
  split
  · next hcond =>
    simp only [Bool.and_eq_true, Bool.not_eq_true'] at hcond
    refine ⟨?_, rfl, fun _ => rfl, fun hnot => ?_⟩
    · show (true = true ↔
        available { gr.state with errors := gr.state.errors + 1, login := false } ≠
          available gr.state)
      rw [hlog, hcond.1, hcond.2]
      simp
    · exact absurd ⟨hcond.2, by rw [hlog]; exact hcond.1⟩ hnot
  · next hcond =>
    simp only [Bool.and_eq_true, Bool.not_eq_true', not_and] at hcond
    have heq : available { gr.state with errors := gr.state.errors + 1 } =
        available gr.state := by
      cases h2 : available { gr.state with errors := gr.state.errors + 1 } with
      | false =>
        cases h1 : available gr.state with
        | false => rfl
        | true => exact absurd h1 (hcond h2)
      | true => rw [hmono h2]
    refine ⟨?_, rfl, fun hflip => ?_, fun _ => rfl⟩
    · show (false = true ↔
        available { gr.state with errors := gr.state.errors + 1 } ≠ available gr.state)
      rw [heq]
      simp
    · exact absurd (heq.symm.trans hflip.2) (by rw [hflip.1]; simp)

theorem commandOk_spec (gr : OpResult) :
    ((commandOk gr).event = true ↔
      available (commandOk gr).state ≠ available gr.state) ∧
    (commandOk gr).err = none ∧
    (commandOk gr).state.errors = 0 ∧
    (commandOk gr).state.login = gr.state.login := by
  unfold commandOk
  have hfin : available { gr.state with errors := 0, init_available := true } = true := by
    simp [available, MAX_ERRORS]
  refine ⟨?_, rfl, rfl, rfl⟩
  show ((!available gr.state) = true ↔
    available { gr.state with errors := 0, init_available := true } ≠ available gr.state)
  rw [hfin]
  cases h : available gr.state <;> simp [h]

/-! ## Claim C7: one event per availability flip of a poll tick -/

/-- C7: a poll tick fires the availability-changed event exactly when
the tick flips the availability predicate, in either direction (so an
error crossing the threshold fires once, further errors while
unavailable fire nothing, a success while unavailable fires exactly one
back-online event, and a success while available fires nothing); a
successful tick also resets the error counter to 0. -/
theorem claim_C7 :
    ∀ (s : State) (o : GetOracle),
      ((command s o).event = true ↔ available (command s o).state ≠ available s) ∧
      ((command s o).err = none → (command s o).state.errors = 0) := by
  intro s o
  have havail :
      available (get_http_data { s with retry_timeout := pollInterval s } o).state =
        available s := by
    rw [get_http_data_available]
    simp [available]
  rw [command_eq]
  rcases he : (get_http_data { s with retry_timeout := pollInterval s } o).err with _ | e
  · have hs := commandOk_spec (get_http_data { s with retry_timeout := pollInterval s } o)
    rw [havail] at hs
    exact ⟨hs.1, fun _ => hs.2.2.1⟩
  · have hs :=
      commandFail_spec (get_http_data { s with retry_timeout := pollInterval s } o) e
    rw [havail] at hs
    refine ⟨hs.1, fun hc => ?_⟩
    rw [hs.2.1] at hc
    exact absurd hc (by simp)

/-- C7 witness: through `claim_C7` — a failing tick at the concrete
threshold state (latch set, 4 prior errors) fires the event. -/
theorem claim_C7_witness :
    (command
      { ariston_data := none, errors := 4, get_time_start := 0, get_time_end := 0,
        init_available := true, login := true, plant_id := "55555", retry_timeout := 45,
        set_param := Pending.empty, set_retry := 0, set_max_retries := 1,
        set_new_data := false, set_scheduled := false, set_time_start := 0,
        set_time_end := 0, token := none, user := "u", password := "p" }
      { login := LoginOutcome.timeout, now := 100, getStart := 100,
        net := GetNet.timeout }).event = true :=
  ((claim_C7 _ _).1).mpr (by decide)

/-! ## Claim C9: clearing the login flag on the offline transition -/

/-- C9: when a failing poll tick flips availability from true to false,
the login flag is cleared in `command` itself; a failing tick that does
not cause this flip leaves the login flag exactly as the fetch step
left it. -/
theorem claim_C9 :
    ∀ (s : State) (o : GetOracle),
      (command s o).err.isSome = true →
      ((available s = true ∧ available (command s o).state = false →
          (command s o).state.login = false) ∧
       (¬(available s = true ∧ available (command s o).state = false) →
          (command s o).state.login =
            (get_http_data { s with retry_timeout := pollInterval s } o).state.login)) := by
  intro s o hsome
  have havail :
      available (get_http_data { s with retry_timeout := pollInterval s } o).state =
        available s := by
    rw [get_http_data_available]
    simp [available]
  rw [command_eq] at hsome ⊢
  rcases he : (get_http_data { s with retry_timeout := pollInterval s } o).err with _ | e
  · rw [he] at hsome
    have : (commandOk (get_http_data { s with retry_timeout := pollInterval s } o)).err
        = none :=
      (commandOk_spec _).2.1
    rw [this] at hsome
    simp at hsome
  · have hs :=
      commandFail_spec (get_http_data { s with retry_timeout := pollInterval s } o) e
    rw [havail] at hs
    exact ⟨hs.2.2.1, hs.2.2.2⟩

/-- C9 witness: through `claim_C9` — at the concrete threshold state a
failing tick clears the login flag. -/
theorem claim_C9_witness :
    (command
      { ariston_data := none, errors := 4, get_time_start := 0, get_time_end := 0,
        init_available := true, login := true, plant_id := "55555", retry_timeout := 45,
        set_param := Pending.empty, set_retry := 0, set_max_retries := 1,
        set_new_data := false, set_scheduled := false, set_time_start := 0,
        set_time_end := 0, token := none, user := "u", password := "p" }
      { login := LoginOutcome.timeout, now := 100, getStart := 100,
        net := GetNet.timeout }).state.login = false :=
  (claim_C9 _ _ (by decide)).1 (by decide)

/-! ## The write reconciler: `_actual_set_http_data` and `_set_http_data` -/

/-- Python `str.lower()` (ASCII case folding; the inputs of interest
are ASCII). -/
def pyLower (s : String) : String := String.mk (s.data.map Char.toLower)

/-- Python `round()` on an exact rational: round half to even. -/
def pyRound (q : ℚ) : Int :=
  let f := ⌊q⌋
  let r := q - (f : ℚ)
  if r < 1 / 2 then f
  else if 1 / 2 < r then f + 1
  else if f % 2 = 0 then f else f + 1

/-- Decimal-literal core of Python `float(s)`: digits with an optional
fractional part (at least one digit overall). -/
def pyFloatCore (t : PyStr) : Option ℚ :=
  match splitOn '.' t with
  | [a] => if isPyDigits a then some (digitsToNat a : ℚ) else none
  | [a, b] =>
    if (!a.isEmpty || !b.isEmpty) && a.all (·.isDigit) && b.all (·.isDigit) then
      some ((digitsToNat a : ℚ) + (digitsToNat b : ℚ) / ((10 : ℚ) ^ b.length))
    else none
  | _ => none

/-- Model of Python `float(s)` for plain decimal literals: optional
whitespace and sign, digits, optional fractional part; `none` models
the `ValueError`.  Exponents and `inf`/`nan` spellings are not
modelled: in `_set_http_data` any such value is either rejected by the
range check or raises into the same bare `except`, leaving the state
unchanged either way. -/
def pyFloat (s : String) : Option ℚ :=
  match stripWs s.data with
  | '+' :: r => pyFloatCore r
  | '-' :: r => (pyFloatCore r).map (fun q => -q)
  | r => pyFloatCore r

/-- Modelled from the spec: mode code `VAL_MODE_WINTER` from `const.py`
(not under `src/`); a representative distinct value. -/
def VAL_MODE_WINTER : Int := 1

/-- Modelled from the spec: mode code `VAL_MODE_SUMMER` from `const.py`
(not under `src/`); a representative distinct value. -/
def VAL_MODE_SUMMER : Int := 0

/-- Modelled from the spec: mode code `VAL_MODE_OFF` from `const.py`
(not under `src/`); a representative distinct value. -/
def VAL_MODE_OFF : Int := 5

/-- Modelled from the spec: CH mode code `VAL_CH_MODE_MANUAL` from
`const.py` (not under `src/`); a representative distinct value. -/
def VAL_CH_MODE_MANUAL : Int := 2

/-- Modelled from the spec: CH mode code `VAL_CH_MODE_SCHEDULED` from
`const.py` (not under `src/`); a representative distinct value. -/
def VAL_CH_MODE_SCHEDULED : Int := 3

/-- Modelled from the spec: `MODE_TO_VALUE` from `const.py` (not under
`src/`), the fixed case-normalized mode-name to code table for
winter/summer/off. -/
def MODE_TO_VALUE (s : String) : Option Int :=
  if s = "winter" then some VAL_MODE_WINTER
  else if s = "summer" then some VAL_MODE_SUMMER
  else if s = "off" then some VAL_MODE_OFF
  else none

/-- Modelled from the spec: `CH_MODE_TO_VALUE` from `const.py` (not
under `src/`), the fixed case-normalized CH-mode-name to code table for
manual/scheduled. -/
def CH_MODE_TO_VALUE (s : String) : Option Int :=
  if s = "manual" then some VAL_CH_MODE_MANUAL
  else if s = "scheduled" then some VAL_CH_MODE_SCHEDULED
  else none

/-- Result of one comparison block of `_actual_set_http_data` (each of
the four `if PARAM_… in self._set_param` blocks of lines 290-333 is an
instance of this pattern): the `NewValue` field after the block, the
surviving pending entry, and whether the block set `data_changed`. -/
structure EntryResult (α : Type) where
  field : α
  pend : Option α
  changed : Bool
deriving Repr

/-- One comparison block (lines 290-300 and its three analogues): a
desired value equal to the `NewValue` field is dropped from the
pending set when `_set_time_start < _get_time_end` (a read already
confirmed it) and kept with `data_changed = True` otherwise; a
differing desired value overwrites the field and sets
`data_changed = True`. -/
def reconcileEntry {α : Type} [DecidableEq α] (field : α) (desired : Option α)
    (tsOk : Bool) : EntryResult α :=
  match desired with
  | none => ⟨field, none, false⟩
  | some v =>
    if field = v then
      if tsOk then ⟨field, none, false⟩ else ⟨field, some v, true⟩
    else ⟨v, some v, true⟩

/-- The outcome of the four comparison blocks together. -/
structure MergeResult where
  newValue : Snapshot
  pending : Pending
  changed : Bool
deriving DecidableEq, Repr

/-- Lines 290-333 of `_actual_set_http_data`: the four comparison
blocks in source order (mode, DHW temperature, CH temperature, CH
mode), run against the `NewValue` deep copy of the snapshot;
`data_changed` is the disjunction of the blocks' markings.  `tsOk` is
`self._set_time_start < self._get_time_end`. -/
def mergeParams (snap : Snapshot) (p : Pending) (tsOk : Bool) : MergeResult :=
  let rm := reconcileEntry snap.mode p.mode tsOk
  let rd := reconcileEntry snap.dhwTempValue p.dhwTemp tsOk
  let rc := reconcileEntry snap.zoneComfortTempValue p.chTemp tsOk
  let rz := reconcileEntry snap.zoneModeValue p.chMode tsOk
  let nv : Snapshot :=
    { snap with
      mode := rm.field, dhwTempValue := rd.field,
      zoneComfortTempValue := rc.field, zoneModeValue := rz.field }
  let pd : Pending :=
    { mode := rm.pend, dhwTemp := rd.pend, chTemp := rc.pend, chMode := rz.pend }
  { newValue := nv, pending := pd,
    changed := rm.changed || rd.changed || rc.changed || rz.changed }

/-- Network outcome of the POST to `SetPlantAndZoneData`: `fail` covers
both a request exception and a non-200 status (both raise `CommError`
with identical state effects); `ok` carries the write-end time and the
parsed reply body (`none` = reply not JSON, which raises out of the
function uncaught). -/
inductive SetNet
  | fail
  | ok (endTime : Int) (body : Option Snapshot)
deriving DecidableEq, Repr

/-- Oracle for one `_actual_set_http_data` call: the login outcome
(used only if not yet logged in), the time recorded as
`_set_time_start` before the POST, and the POST outcome. -/
structure SetOracle where
  login : LoginOutcome
  postStart : Int
  net : SetNet
deriving DecidableEq, Repr

/-- Result of `_actual_set_http_data` / `_set_http_data`: final state,
raised error if any, whether a POST transmit was attempted, whether the
one-shot retry timer (`track_point_in_time`) was armed, and network
calls made. -/
structure SetResult where
  state : State
  err : Option AErr
  transmitted : Bool
  armed : Bool
  netCalls : Nat
deriving DecidableEq, Repr

/-- The retry-arming-or-give-up block (lines 335-351, repeated verbatim
at lines 383-399): when this run is not itself the scheduled retry,
either arm the one-shot retry timer at `HTTP_SET_INTERVAL` and consume
one retry, or — budget exhausted — delete all four pending entries.
Returns the new state and whether the timer was armed. -/
def armOrDrop (s : State) : State × Bool :=
  if ¬ s.set_scheduled then
    if s.set_retry < s.set_max_retries then
      ({ s with set_retry := s.set_retry + 1, set_scheduled := true }, true)
    else
      ({ s with set_param := Pending.empty }, false)
  else (s, false)

/-- The transmit tail of `_actual_set_http_data` (lines 352-378):
`_set_time_start` is recorded, the POST made; a request exception or a
non-200 status raises `CommError`; on 200 `_set_time_end` is recorded,
then the parsed reply replaces the snapshot (a non-JSON reply raises
uncaught). -/
def transmitChanged (s4 : State) (armed : Bool) (o : SetOracle) (n : Nat) : SetResult :=
  let s5 : State := { s4 with set_time_start := o.postStart }
  match o.net with
  | .fail =>
      { state := s5, err := some .comm, transmitted := true, armed := armed,
        netCalls := n + 1 }
  | .ok endTime body =>
    let s6 : State := { s5 with set_time_end := endTime }
    match body with
    | none =>
        { state := s6, err := some .pyError, transmitted := true, armed := armed,
          netCalls := n + 1 }
    | some reply =>
        { state := { s6 with ariston_data := some reply }, err := none,
          transmitted := true, armed := armed, netCalls := n + 1 }

/-- `AristonChecker._actual_set_http_data`, main part (lines 281-401):
if logged in, available and with a plant id, reconcile the pending set
against the `NewValue` snapshot copy (whose deroga field is normalized
but not compared; with an empty snapshot the deroga assignment raises
`KeyError` out of the function) and, if anything changed, arm-or-drop
then transmit via `transmitChanged`.  When the session/availability is
not ready, arm-or-drop and raise `CommError` without transmitting. -/
def actual_set_body (s2 : State) (o : SetOracle) (loginCalls : Nat) : SetResult :=
  if s2.login = true ∧ available s2 = true ∧ s2.plant_id ≠ "" then
    match s2.ariston_data with
    | none =>
        { state := s2, err := some .pyError, transmitted := false, armed := false,
          netCalls := loginCalls }
    | some snap =>
      let tsOk := decide (s2.set_time_start < s2.get_time_end)
      let mr := mergeParams snap s2.set_param tsOk
      let s3 : State := { s2 with set_param := mr.pending }
      if mr.changed then
        let ad := armOrDrop s3
        transmitChanged ad.1 ad.2 o loginCalls
      else
        { state := s3, err := none, transmitted := false, armed := false,
          netCalls := loginCalls }
  else
    let ad := armOrDrop s2
    { state := ad.1, err := some .comm, transmitted := false, armed := ad.2,
      netCalls := loginCalls }

/-- `AristonChecker._actual_set_http_data`, entry part (lines 271-280):
login, then the flag bookkeeping — a scheduled retry clears
`_set_scheduled`, an initial attempt clears `_set_new_data` and zeroes
`_set_retry` — before handing over to the body. -/
def actual_set_http_data (s : State) (o : SetOracle) : SetResult :=
  let lr := login_session s o.login
  match lr.err with
  | some e =>
      { state := lr.state, err := some e, transmitted := false, armed := false,
        netCalls := lr.netCalls }
  | none =>
    let s1 := lr.state
    if ¬ s1.set_new_data then
      actual_set_body { s1 with set_scheduled := false } o lr.netCalls
    else
      actual_set_body { s1 with set_new_data := false, set_retry := 0 } o lr.netCalls

/-- The parameter map handed to `_set_http_data`, with values as the
Python strings the code obtains via `str(...)`. -/
structure ParamList where
  mode : Option String
  dhwTemp : Option String
  chTemp : Option String
  chMode : Option String
deriving DecidableEq, Repr

/-- The empty parameter map. -/
def ParamList.empty : ParamList := ⟨none, none, none, none⟩

/-- `AristonChecker._set_http_data` (lines 403-458): raises `CommError`
immediately when no snapshot has ever been fetched; otherwise validates
and coerces each recognized parameter (mode table lookup; DHW
temperature rounded to nearest 1 and bounds-checked; CH temperature
rounded to nearest 0.5 and bounds-checked; CH mode table lookup),
merging accepted values into `_set_param` and silently dropping the
rest, then sets `_set_new_data = True` and synchronously calls
`_actual_set_http_data`. -/
def set_http_data (s : State) (pl : ParamList) (o : SetOracle) : SetResult :=
  match s.ariston_data with
  | none =>
      { state := s, err := some .comm, transmitted := false, armed := false,
        netCalls := 0 }
  | some d =>
    let p0 := s.set_param
    let p1 : Pending :=
      match pl.mode with
      | none => p0
      | some w =>
        match MODE_TO_VALUE (pyLower w) with
        | some c => { p0 with mode := some c }
        | none => p0
    let p2 : Pending :=
      match pl.dhwTemp with
      | none => p1
      | some w =>
        match pyFloat (pyLower w) with
        | none => p1
        | some q =>
          let t := pyRound q
          if d.dhwTempMin ≤ (t : ℚ) ∧ (t : ℚ) ≤ d.dhwTempMax then
            { p1 with dhwTemp := some (t : ℚ) }
          else p1
    let p3 : Pending :=
      match pl.chTemp with
      | none => p2
      | some w =>
        match pyFloat (pyLower w) with
        | none => p2
        | some q =>
          let t : ℚ := (pyRound (q * 2) : ℚ) / 2
          if d.zoneComfortTempMin ≤ t ∧ t ≤ d.zoneComfortTempMax then
            { p2 with chTemp := some t }
          else p2
    let p4 : Pending :=
      match pl.chMode with
      | none => p3
      | some w =>
        match CH_MODE_TO_VALUE (pyLower w) with
        | some c => { p3 with chMode := some c }
        | none => p3
    actual_set_http_data { s with set_param := p4, set_new_data := true } o

/-! ## Claim C2: the per-entry reconciliation rules -/

theorem reconcileEntry_cases {α : Type} [DecidableEq α] (f : α) (v : α) (ts : Bool) :
    (f = v ∧ ts = true →
      (reconcileEntry f (some v) ts).pend = none ∧
      (reconcileEntry f (some v) ts).changed = false) ∧
    (f = v ∧ ts = false →
      (reconcileEntry f (some v) ts).pend = some v ∧
      (reconcileEntry f (some v) ts).changed = true) ∧
    (f ≠ v →
      (reconcileEntry f (some v) ts).field = v ∧
      (reconcileEntry f (some v) ts).pend = some v ∧
      (reconcileEntry f (some v) ts).changed = true) := by
  by_cases hf : f = v
  · cases ts <;> simp [reconcileEntry, hf]
  · simp [reconcileEntry, hf]

theorem reconcileEntry_changed {α : Type} [DecidableEq α] (f : α) (o : Option α)
    (ts : Bool) :
    (reconcileEntry f o ts).changed = o.any (fun v => !(decide (f = v) && ts)) := by
  cases o with
  | none => rfl
  | some v =>
    by_cases hf : f = v
    · cases ts <;> simp [reconcileEntry, hf, Option.any]
    · simp [reconcileEntry, hf, Option.any]

/-- C2: in the reconciliation step (session and availability ready),
each of the four parameter kinds present in the pending change set is
handled by its comparison block as follows — equal to the snapshot
copy's field and write-start before read-end: entry dropped; equal but
unconfirmed: entry kept and data marked changed; different: field
overwritten and data marked changed.  The final conjunct shows
`data_changed` is set exactly by the unconfirmed-or-differing entries,
so a dropped entry never marks data as changed. -/
theorem claim_C2 :
    ∀ (snap : Snapshot) (p : Pending) (ts : Bool),
      (∀ v, p.mode = some v →
        (snap.mode = v ∧ ts = true → (mergeParams snap p ts).pending.mode = none) ∧
        (snap.mode = v ∧ ts = false →
          (mergeParams snap p ts).pending.mode = some v ∧
          (mergeParams snap p ts).changed = true) ∧
        (snap.mode ≠ v →
          (mergeParams snap p ts).newValue.mode = v ∧
          (mergeParams snap p ts).pending.mode = some v ∧
          (mergeParams snap p ts).changed = true)) ∧
      (∀ v, p.dhwTemp = some v →
        (snap.dhwTempValue = v ∧ ts = true →
          (mergeParams snap p ts).pending.dhwTemp = none) ∧
        (snap.dhwTempValue = v ∧ ts = false →
          (mergeParams snap p ts).pending.dhwTemp = some v ∧
          (mergeParams snap p ts).changed = true) ∧
        (snap.dhwTempValue ≠ v →
          (mergeParams snap p ts).newValue.dhwTempValue = v ∧
          (mergeParams snap p ts).pending.dhwTemp = some v ∧
          (mergeParams snap p ts).changed = true)) ∧
      (∀ v, p.chTemp = some v →
        (snap.zoneComfortTempValue = v ∧ ts = true →
          (mergeParams snap p ts).pending.chTemp = none) ∧
        (snap.zoneComfortTempValue = v ∧ ts = false →
          (mergeParams snap p ts).pending.chTemp = some v ∧
          (mergeParams snap p ts).changed = true) ∧
        (snap.zoneComfortTempValue ≠ v →
          (mergeParams snap p ts).newValue.zoneComfortTempValue = v ∧
          (mergeParams snap p ts).pending.chTemp = some v ∧
          (mergeParams snap p ts).changed = true)) ∧
      (∀ v, p.chMode = some v →
        (snap.zoneModeValue = v ∧ ts = true →
          (mergeParams snap p ts).pending.chMode = none) ∧
        (snap.zoneModeValue = v ∧ ts = false →
          (mergeParams snap p ts).pending.chMode = some v ∧
          (mergeParams snap p ts).changed = true) ∧
        (snap.zoneModeValue ≠ v →
          (mergeParams snap p ts).newValue.zoneModeValue = v ∧
          (mergeParams snap p ts).pending.chMode = some v ∧
          (mergeParams snap p ts).changed = true)) ∧
      (mergeParams snap p ts).changed =
        (p.mode.any (fun v => !(decide (snap.mode = v) && ts)) ||
         p.dhwTemp.any (fun v => !(decide (snap.dhwTempValue = v) && ts)) ||
         p.chTemp.any (fun v => !(decide (snap.zoneComfortTempValue = v) && ts)) ||
         p.chMode.any (fun v => !(decide (snap.zoneModeValue = v) && ts))) := by
  intro snap p ts
  have hch : (mergeParams snap p ts).changed =
      ((reconcileEntry snap.mode p.mode ts).changed ||
       (reconcileEntry snap.dhwTempValue p.dhwTemp ts).changed ||
       (reconcileEntry snap.zoneComfortTempValue p.chTemp ts).changed ||
       (reconcileEntry snap.zoneModeValue p.chMode ts).changed) := rfl
  refine ⟨?_, ?_, ?_, ?_, ?_⟩
  · intro v hv
    have hc := reconcileEntry_cases snap.mode v ts
    have e1 : (mergeParams snap p ts).pending.mode =
        (reconcileEntry snap.mode p.mode ts).pend := rfl
    have e2 : (mergeParams snap p ts).newValue.mode =
        (reconcileEntry snap.mode p.mode ts).field := rfl
    rw [hv] at e1 e2
    rw [hv] at hch
    refine ⟨fun h => ?_, fun h => ?_, fun h => ?_⟩
    · rw [e1]; exact (hc.1 h).1
    · exact ⟨by rw [e1]; exact (hc.2.1 h).1, by rw [hch, (hc.2.1 h).2]; simp⟩
    · exact ⟨by rw [e2]; exact (hc.2.2 h).1, by rw [e1]; exact (hc.2.2 h).2.1,
        by rw [hch, (hc.2.2 h).2.2]; simp⟩
  · intro v hv
    have hc := reconcileEntry_cases snap.dhwTempValue v ts
    have e1 : (mergeParams snap p ts).pending.dhwTemp =
        (reconcileEntry snap.dhwTempValue p.dhwTemp ts).pend := rfl
    have e2 : (mergeParams snap p ts).newValue.dhwTempValue =
        (reconcileEntry snap.dhwTempValue p.dhwTemp ts).field := rfl
    rw [hv] at e1 e2
    rw [hv] at hch
    refine ⟨fun h => ?_, fun h => ?_, fun h => ?_⟩
    · rw [e1]; exact (hc.1 h).1
    · exact ⟨by rw [e1]; exact (hc.2.1 h).1, by rw [hch, (hc.2.1 h).2]; simp⟩
    · exact ⟨by rw [e2]; exact (hc.2.2 h).1, by rw [e1]; exact (hc.2.2 h).2.1,
        by rw [hch, (hc.2.2 h).2.2]; simp⟩
  · intro v hv
    have hc := reconcileEntry_cases snap.zoneComfortTempValue v ts
    have e1 : (mergeParams snap p ts).pending.chTemp =
        (reconcileEntry snap.zoneComfortTempValue p.chTemp ts).pend := rfl
    have e2 : (mergeParams snap p ts).newValue.zoneComfortTempValue =
        (reconcileEntry snap.zoneComfortTempValue p.chTemp ts).field := rfl
    rw [hv] at e1 e2
    rw [hv] at hch
    refine ⟨fun h => ?_, fun h => ?_, fun h => ?_⟩
    · rw [e1]; exact (hc.1 h).1
    · exact ⟨by rw [e1]; exact (hc.2.1 h).1, by rw [hch, (hc.2.1 h).2]; simp⟩
    · exact ⟨by rw [e2]; exact (hc.2.2 h).1, by rw [e1]; exact (hc.2.2 h).2.1,
        by rw [hch, (hc.2.2 h).2.2]; simp⟩
  · intro v hv
    have hc := reconcileEntry_cases snap.zoneModeValue v ts
    have e1 : (mergeParams snap p ts).pending.chMode =
        (reconcileEntry snap.zoneModeValue p.chMode ts).pend := rfl
    have e2 : (mergeParams snap p ts).newValue.zoneModeValue =
        (reconcileEntry snap.zoneModeValue p.chMode ts).field := rfl
    rw [hv] at e1 e2
    rw [hv] at hch
    refine ⟨fun h => ?_, fun h => ?_, fun h => ?_⟩
    · rw [e1]; exact (hc.1 h).1
    · exact ⟨by rw [e1]; exact (hc.2.1 h).1, by rw [hch, (hc.2.1 h).2]; simp⟩
    · exact ⟨by rw [e2]; exact (hc.2.2 h).1, by rw [e1]; exact (hc.2.2 h).2.1,
        by rw [hch, (hc.2.2 h).2.2]; simp⟩
  · rw [hch, reconcileEntry_changed, reconcileEntry_changed, reconcileEntry_changed,
      reconcileEntry_changed]

/-- A concrete snapshot shared by the witnesses. -/
def snapA : Snapshot :=
  { mode := 1, dhwTempValue := 40, dhwTempMin := 35, dhwTempMax := 60,
    zoneComfortTempValue := 21, zoneComfortTempMin := 10, zoneComfortTempMax := 30,
    zoneModeValue := 2, zoneDerogaUntil := "12:30 PM".data }

/-- C2 witness: through `claim_C2` at a concrete snapshot and pending
set — a confirmed-equal mode entry is dropped, a differing CH-mode
entry overwrites the field, keeps its entry and marks data changed. -/
theorem claim_C2_witness :
    (mergeParams snapA ⟨some 1, none, none, some 7⟩ true).pending.mode = none ∧
    (mergeParams snapA ⟨some 1, none, none, some 7⟩ true).newValue.zoneModeValue = 7 ∧
    (mergeParams snapA ⟨some 1, none, none, some 7⟩ true).pending.chMode = some 7 ∧
    (mergeParams snapA ⟨some 1, none, none, some 7⟩ true).changed = true := by
  have h := claim_C2 snapA ⟨some 1, none, none, some 7⟩ true
  refine ⟨(h.1 1 rfl).1 ⟨by decide, rfl⟩, ?_, ?_, ?_⟩
  · exact ((h.2.2.2.1 7 rfl).2.2 (by decide)).1
  · exact ((h.2.2.2.1 7 rfl).2.2 (by decide)).2.1
  · exact ((h.2.2.2.1 7 rfl).2.2 (by decide)).2.2

/-! ## Claim C4: applyParameters with no snapshot -/

/-- C4: with no snapshot ever fetched (`_ariston_data == {}`), every
`_set_http_data` call raises `CommError` synchronously, makes no
network call, and leaves the whole state — the pending change set
included — unchanged. -/
theorem claim_C4 :
    ∀ (s : State) (pl : ParamList) (o : SetOracle),
      s.ariston_data = none →
      set_http_data s pl o =
        { state := s, err := some AErr.comm, transmitted := false, armed := false,
          netCalls := 0 } := by
  intro s pl o h
  unfold set_http_data
  rw [h]

/-- A concrete healthy checker state shared by the witnesses: logged
in, latch set, no errors, snapshot `snapA`, empty pending set. -/
def stateA : State :=
  { ariston_data := some snapA, errors := 0, get_time_start := 0, get_time_end := 0,
    init_available := true, login := true, plant_id := "55555", retry_timeout := 45,
    set_param := Pending.empty, set_retry := 0, set_max_retries := 1,
    set_new_data := false, set_scheduled := false, set_time_start := 0,
    set_time_end := 0, token := none, user := "u", password := "p" }

/-- C4 witness: through `claim_C4` at the concrete snapshot-less state. -/
theorem claim_C4_witness :
    set_http_data { stateA with ariston_data := none } ParamList.empty
      { login := LoginOutcome.timeout, postStart := 0, net := SetNet.fail } =
      { state := { stateA with ariston_data := none }, err := some AErr.comm,
        transmitted := false, armed := false, netCalls := 0 } :=
  claim_C4 _ _ _ rfl

/-! ## Claim C10: the retry counter across applyParameters calls -/

theorem armOrDrop_retry (s : State) :
    (armOrDrop s).1.set_retry = s.set_retry ∨
    (armOrDrop s).1.set_retry = s.set_retry + 1 := by
  unfold armOrDrop
  split
  · split
    · right; rfl
    · left; rfl
  · left; rfl

theorem armOrDrop_new_data (s : State) :
    (armOrDrop s).1.set_new_data = s.set_new_data := by
  unfold armOrDrop
  split
  · split <;> rfl
  · rfl

theorem transmitChanged_fields (s4 : State) (a : Bool) (o : SetOracle) (n : Nat) :
    (transmitChanged s4 a o n).state.set_retry = s4.set_retry ∧
    (transmitChanged s4 a o n).state.set_new_data = s4.set_new_data ∧
    (transmitChanged s4 a o n).armed = a ∧
    (transmitChanged s4 a o n).transmitted = true := by
  unfold transmitChanged
  rcases o.net with _ | ⟨e, b⟩
  · exact ⟨rfl, rfl, rfl, rfl⟩
  · rcases b with _ | r
    · exact ⟨rfl, rfl, rfl, rfl⟩
    · exact ⟨rfl, rfl, rfl, rfl⟩

theorem actual_set_body_retry (s2 : State) (o : SetOracle) (n : Nat)
    (h0 : s2.set_retry = 0) (hnd : s2.set_new_data = false) :
    (actual_set_body s2 o n).state.set_retry ≤ 1 ∧
    (actual_set_body s2 o n).state.set_new_data = false := by
  unfold actual_set_body
  split
  · split
    · exact ⟨by simp [h0], by simp [hnd]⟩
    · dsimp only
      split
      case isTrue =>
        constructor
        case left =>
          rw [(transmitChanged_fields _ _ o n).1]
          rcases armOrDrop_retry _ with h | h
          · rw [h]; simp [h0]
          · rw [h]; simp [h0]
        case right =>
          rw [(transmitChanged_fields _ _ o n).2.1, armOrDrop_new_data]
          simp [hnd]
      exact ⟨by simp [h0], by simp [hnd]⟩
  · refine ⟨?_, ?_⟩
    · rcases armOrDrop_retry s2 with h | h
      · simp [h, h0]
      · simp [h, h0]
    · rw [armOrDrop_new_data]
      exact hnd

theorem actual_set_initial (t : State) (o : SetOracle)
    (hnew : t.set_new_data = true)
    (hlog : t.login = true ∨ ∃ pid, o.login = LoginOutcome.redirect pid) :
    (actual_set_http_data t o).state.set_retry ≤ 1 ∧
    (actual_set_http_data t o).state.set_new_data = false := by
  cases hl : t.login with
  | true =>
    have heq : actual_set_http_data t o =
        actual_set_body { t with set_new_data := false, set_retry := 0 } o 0 := by
      simp [actual_set_http_data, login_session, hl, hnew]
    rw [heq]
    exact actual_set_body_retry _ o 0 rfl rfl
  | false =>
    rcases hlog with h | ⟨pid, hr⟩
    · rw [hl] at h
      exact absurd h (by simp)
    · have heq : actual_set_http_data t o =
          actual_set_body
            { t with
              token := some (t.user, t.password), plant_id := pid,
              login := true, set_new_data := false, set_retry := 0 } o 1 := by
        simp [actual_set_http_data, login_session, hl, hr, hnew]
      rw [heq]
      exact actual_set_body_retry _ o 1 rfl rfl

/-- C10 (counterexample): the claim says every `applyParameters` call
made while a snapshot exists resets the write-retry counter to 0
(ending at most 1 after a possible re-arm).  But the reconciliation
calls `_login_session` first; when the checker is logged out and the
login raises, the retry counter is left untouched — here at 2. -/
theorem claim_C10_counterexample :
    ({ stateA with
        login := false, set_retry := 2,
        set_max_retries := 3 } : State).ariston_data.isSome = true ∧
    ¬ ((set_http_data
        { stateA with
          login := false, set_retry := 2, set_max_retries := 3 }
        ParamList.empty
        { login := LoginOutcome.timeout, postStart := 0,
          net := SetNet.fail }).state.set_retry ≤ 1) := by
  constructor
  · decide
  · decide

/-- C10 (amended): every `applyParameters` call made while a snapshot
exists marks the attempt as initial and synchronously invokes the
reconciliation; provided the reconciliation's login step does not raise
(already logged in, or the login redirect succeeds), the write-retry
counter is reset to 0 before the retry-arming logic — even when every
supplied parameter was rejected by validation or the map was empty — so
the call restores the retry budget (the counter ends at most 1, one
possible re-arm above the reset).  If the login step raises, the
counter is left unchanged. -/
theorem claim_C10 :
    ∀ (s : State) (pl : ParamList) (o : SetOracle) (d : Snapshot),
      s.ariston_data = some d →
      (s.login = true ∨ ∃ pid, o.login = LoginOutcome.redirect pid) →
      (set_http_data s pl o).state.set_retry ≤ 1 ∧
      (set_http_data s pl o).state.set_new_data = false := by
  intro s pl o d hd hlog
  unfold set_http_data
  rw [hd]
  exact actual_set_initial _ o rfl hlog

/-- C10 witness: through `claim_C10` at the concrete healthy state with
an empty parameter map. -/
theorem claim_C10_witness :
    (set_http_data stateA ParamList.empty
      { login := LoginOutcome.timeout, postStart := 0,
        net := SetNet.fail }).state.set_retry ≤ 1 ∧
    (set_http_data stateA ParamList.empty
      { login := LoginOutcome.timeout, postStart := 0,
        net := SetNet.fail }).state.set_new_data = false :=
  claim_C10 stateA ParamList.empty _ snapA rfl (Or.inl rfl)

/-! ## Claim C3: the retry bound with maxRetries = 1 -/

theorem mergeParams_mode_diff (d : Snapshot) (v : Int) (ts : Bool) (h : d.mode ≠ v) :
    (mergeParams d ⟨some v, none, none, none⟩ ts).changed = true ∧
    (mergeParams d ⟨some v, none, none, none⟩ ts).pending =
      ⟨some v, none, none, none⟩ := by
  constructor
  · simp [mergeParams, reconcileEntry, h]
  · simp [mergeParams, reconcileEntry, h]

theorem armOrDrop_arm (s : State) (h1 : s.set_scheduled = false)
    (h2 : s.set_retry < s.set_max_retries) :
    armOrDrop s = ({ s with set_retry := s.set_retry + 1, set_scheduled := true }, true) := by
  simp [armOrDrop, h1, h2]

theorem armOrDrop_drop (s : State) (h1 : s.set_scheduled = false)
    (h2 : ¬ s.set_retry < s.set_max_retries) :
    armOrDrop s = ({ s with set_param := Pending.empty }, false) := by
  simp [armOrDrop, h1, h2]

/-- The parameter map `{mode: "winter"}`. -/
def winterParams : ParamList := ⟨some "winter", none, none, none⟩

/-- C3: with `_set_max_retries = 1` and an empty pending set, a single
`applyParameters` request whose accepted mode value never matches the
snapshot and whose every transmission fails makes exactly one transmit
and arms one retry; when the armed retry runs, it makes the second (and
last) transmit, arms nothing further, and leaves the pending change set
empty with no retry scheduled — at most 2 transmit attempts in total. -/
theorem claim_C3 :
    ∀ (s : State) (d : Snapshot) (o1 o2 : SetOracle),
      s.set_param = Pending.empty →
      s.set_scheduled = false →
      s.set_max_retries = 1 →
      s.login = true →
      available s = true →
      s.plant_id ≠ "" →
      s.ariston_data = some d →
      d.mode ≠ VAL_MODE_WINTER →
      o1.net = SetNet.fail →
      o2.net = SetNet.fail →
      (set_http_data s winterParams o1).transmitted = true ∧
      (set_http_data s winterParams o1).armed = true ∧
      (set_http_data s winterParams o1).err = some AErr.comm ∧
      (actual_set_http_data (set_http_data s winterParams o1).state o2).transmitted
        = true ∧
      (actual_set_http_data (set_http_data s winterParams o1).state o2).armed
        = false ∧
      (actual_set_http_data (set_http_data s winterParams o1).state o2).err
        = some AErr.comm ∧
      (actual_set_http_data
        (set_http_data s winterParams o1).state o2).state.set_param
        = Pending.empty ∧
      (actual_set_http_data
        (set_http_data s winterParams o1).state o2).state.set_scheduled = false := by
  intro s d o1 o2 hp hsch hmax hl hav hpl hd hm hf1 hf2
  have hlt1 : (0 : Nat) < s.set_max_retries := by rw [hmax]; exact Nat.zero_lt_one
  have hnlt : ¬ (1 : Nat) < s.set_max_retries := by rw [hmax]; exact lt_irrefl 1
  -- call 1: validation queues the winter mode code and hands over
  have h1 : set_http_data s winterParams o1 =
      actual_set_http_data
        { s with
          ariston_data := some d,
          set_param := ⟨some VAL_MODE_WINTER, none, none, none⟩,
          set_new_data := true } o1 := by
    unfold set_http_data
    rw [hd, hp]
    rfl
  -- call 1: the login is a no-op and the attempt is initial
  have h2 : actual_set_http_data
      { s with
        ariston_data := some d,
        set_param := ⟨some VAL_MODE_WINTER, none, none, none⟩,
        set_new_data := true } o1 =
      actual_set_body
        { s with
          ariston_data := some d,
          set_param := ⟨some VAL_MODE_WINTER, none, none, none⟩,
          set_new_data := false, set_retry := 0 } o1 0 := by
    simp [actual_set_http_data, login_session, hl]
  -- call 1: body — ready, changed, arm, transmit, fail
  have h3 : actual_set_body
      { s with
        ariston_data := some d,
        set_param := ⟨some VAL_MODE_WINTER, none, none, none⟩,
        set_new_data := false, set_retry := 0 } o1 0 =
      { state :=
          { s with
            ariston_data := some d,
            set_param := ⟨some VAL_MODE_WINTER, none, none, none⟩,
            set_new_data := false, set_retry := 1, set_scheduled := true,
            set_time_start := o1.postStart },
        err := some AErr.comm, transmitted := true, armed := true, netCalls := 1 } := by
    have hmp := mergeParams_mode_diff d VAL_MODE_WINTER
      (decide (s.set_time_start < s.get_time_end)) hm
    unfold actual_set_body
    split
    case isFalse hc => exact absurd ⟨hl, hav, hpl⟩ hc
    case isTrue hc =>
      dsimp only
      rw [hmp.1, if_pos rfl, hmp.2]
      rw [armOrDrop_arm]
      · unfold transmitChanged
        rw [hf1]
      · exact hsch
      · exact hlt1
  rw [h1, h2, h3]
  -- call 2: the login is a no-op and the run is the scheduled retry
  have h4 : actual_set_http_data
      { s with
        ariston_data := some d,
        set_param := ⟨some VAL_MODE_WINTER, none, none, none⟩,
        set_new_data := false, set_retry := 1, set_scheduled := true,
        set_time_start := o1.postStart } o2 =
      actual_set_body
        { s with
          ariston_data := some d,
          set_param := ⟨some VAL_MODE_WINTER, none, none, none⟩,
          set_new_data := false, set_retry := 1, set_scheduled := false,
          set_time_start := o1.postStart } o2 0 := by
    simp [actual_set_http_data, login_session, hl]
  -- call 2: body — ready, still changed, budget exhausted: drop, transmit, fail
  have h5 : actual_set_body
      { s with
        ariston_data := some d,
        set_param := ⟨some VAL_MODE_WINTER, none, none, none⟩,
        set_new_data := false, set_retry := 1, set_scheduled := false,
        set_time_start := o1.postStart } o2 0 =
      { state :=
          { s with
            ariston_data := some d,
            set_param := Pending.empty, set_new_data := false,
            set_retry := 1, set_scheduled := false,
            set_time_start := o2.postStart },
        err := some AErr.comm, transmitted := true, armed := false, netCalls := 1 } := by
    have hmp := mergeParams_mode_diff d VAL_MODE_WINTER
      (decide (o1.postStart < s.get_time_end)) hm
    unfold actual_set_body
    split
    case isFalse hc => exact absurd ⟨hl, hav, hpl⟩ hc
    case isTrue hc =>
      dsimp only
      rw [hmp.1, if_pos rfl, hmp.2]
      rw [armOrDrop_drop]
      · unfold transmitChanged
        rw [hf2]
      · rfl
      · exact hnlt
  rw [h4, h5]
  exact ⟨rfl, rfl, rfl, rfl, rfl, rfl, rfl, rfl⟩

/-- C3 witness: through `claim_C3` at the concrete healthy state —
both transmissions fail, the pending set ends empty and unscheduled. -/
theorem claim_C3_witness :
    (set_http_data { stateA with ariston_data := some { snapA with mode := 0 } }
      winterParams
      { login := LoginOutcome.timeout, postStart := 10, net := SetNet.fail }).armed
      = true ∧
    (actual_set_http_data
      (set_http_data { stateA with ariston_data := some { snapA with mode := 0 } }
        winterParams
        { login := LoginOutcome.timeout, postStart := 10, net := SetNet.fail }).state
      { login := LoginOutcome.timeout, postStart := 20,
        net := SetNet.fail }).state.set_param = Pending.empty := by
  have h := claim_C3 { stateA with ariston_data := some { snapA with mode := 0 } }
    { snapA with mode := 0 }
    { login := LoginOutcome.timeout, postStart := 10, net := SetNet.fail }
    { login := LoginOutcome.timeout, postStart := 20, net := SetNet.fail }
    rfl rfl rfl rfl (by decide) (by decide) rfl (by decide) rfl rfl
  exact ⟨h.2.1, h.2.2.2.2.2.2.1⟩

end Ariston
